import Mathlib

/-!
Verification development for the hgr gesture-control repository.

The Python sources `gesture_detector.py` and `server.py` are embedded
shallowly:

* a landmark `[id, x, y]` (pixel integers, as produced by
  `get_hand_landmarks`) becomes a `Landmark` structure;
* `GestureDetector.count_fingers` / `detect_gesture` become pure
  `Option`-valued functions (`none` models the `IndexError` a too-short
  landmark list would raise in Python);
* the FastAPI handlers `toggle_device`, `set_device_state`,
  `select_device`, `update_settings` and the per-frame body of the
  websocket endpoint become state-passing functions over `ServerState`;
* timestamps are modelled as integers: Python `datetime` has a fixed
  microsecond resolution, so instants and durations live in `ℤ`
  (the default `hold_time` of 1.5 s is 1500000 µs); each processed frame
  is given one instant `now`, abstracting the sub-millisecond spread of
  the several `datetime.now()` calls inside one iteration;
* broadcast messages become values of an `Event` type collected in a
  list, in emission order.
-/

namespace HGR

/-- One hand landmark as produced by `get_hand_landmarks`:
`[id, cx, cy]` with pixel coordinates already converted to integers. -/
structure Landmark where
  id : Int
  x : Int
  y : Int
deriving DecidableEq, Repr

/-- Embedding of `GestureDetector.count_fingers` (gesture_detector.py
lines 118-150).
The thumb compares the tip's x against the landmark one index before it;
each other finger compares the tip's y against the landmark two positions
before it; the result counts the `1` entries.  Indexing a non-empty list
that is too short raises `IndexError` in Python, modelled here by `none`. -/
def count_fingers (landmarks_list : List Landmark) : Option Nat :=
  if landmarks_list.length = 0 then
    some 0
  else do
    let t4 ← landmarks_list[4]?
    let t3 ← landmarks_list[3]?
    let thumb : Nat := if t4.x < t3.x then 1 else 0
    let t8 ← landmarks_list[8]?
    let j6 ← landmarks_list[6]?
    let index : Nat := if t8.y < j6.y then 1 else 0
    let t12 ← landmarks_list[12]?
    let j10 ← landmarks_list[10]?
    let middle : Nat := if t12.y < j10.y then 1 else 0
    let t16 ← landmarks_list[16]?
    let j14 ← landmarks_list[14]?
    let ring : Nat := if t16.y < j14.y then 1 else 0
    let t20 ← landmarks_list[20]?
    let j18 ← landmarks_list[18]?
    let pinky : Nat := if t20.y < j18.y then 1 else 0
    let fingers := [thumb, index, middle, ring, pinky]
    pure (fingers.count 1)

/-- Embedding of `GestureDetector.detect_gesture` (gesture_detector.py
lines 153-183). -/
def detect_gesture (landmarks_list : List Landmark) : Option String :=
  if landmarks_list.length = 0 then
    some "No Hand"
  else do
    let finger_count ← count_fingers landmarks_list
    if finger_count = 0 then pure "FIST (OFF)"
    else if finger_count = 5 then pure "OPEN PALM (ON)"
    else if finger_count = 1 then pure "ONE FINGER"
    else if finger_count = 2 then pure "TWO FINGERS"
    else if finger_count = 3 then pure "THREE FINGERS"
    else if finger_count = 4 then pure "FOUR FINGERS"
    else pure "Unknown"

/-- The spec's gesture lookup table, written from the spec's words
("count of true flags 0→Fist, 5→OpenPalm, 1→OneFinger, 2→TwoFingers,
3→ThreeFingers, 4→FourFingers"), to be compared with `detect_gesture`. -/
def specGestureLookup (c : Nat) : String :=
  if c = 0 then "FIST (OFF)"
  else if c = 5 then "OPEN PALM (ON)"
  else if c = 1 then "ONE FINGER"
  else if c = 2 then "TWO FINGERS"
  else if c = 3 then "THREE FINGERS"
  else if c = 4 then "FOUR FINGERS"
  else "Unknown"

/-- The closed set of the 8 gesture symbols of the spec's data model. -/
def gestureSymbols : List String :=
  ["No Hand", "FIST (OFF)", "OPEN PALM (ON)", "ONE FINGER",
   "TWO FINGERS", "THREE FINGERS", "FOUR FINGERS", "Unknown"]

/-- A concrete 21-point hand with every finger flexed (all comparisons
fail), classifying as a fist. -/
def fistLandmarks : List Landmark :=
  (List.range 21).map (fun i => { id := (i : Int), x := 0, y := 0 })

/-- A concrete 21-point hand with all five fingers extended. -/
def palmLandmarks : List Landmark :=
  (List.range 21).map (fun i =>
    { id := (i : Int),
      x := if i = 3 then 10 else 0,
      y := if i = 6 ∨ i = 10 ∨ i = 14 ∨ i = 18 then 10 else 0 })

/-- A concrete 21-point hand with exactly index and middle finger
extended (finger vector [false, true, true, false, false]). -/
def twoFingerLandmarks : List Landmark :=
  (List.range 21).map (fun i =>
    { id := (i : Int), x := 0, y := if i = 6 ∨ i = 10 then 10 else 0 })

/-- The 7 gesture symbols `detect_gesture` can actually return. -/
def producibleSymbols : List String :=
  ["No Hand", "FIST (OFF)", "OPEN PALM (ON)", "ONE FINGER",
   "TWO FINGERS", "THREE FINGERS", "FOUR FINGERS"]

/-- One entry of the `devices` dictionary of server.py (lines 37-62):
display name, boolean on/off state, category, last-updated timestamp
(`None` until first mutation; timestamps are integers, see the header). -/
structure Device where
  name : String
  state : Bool
  category : String
  last_updated : Option Int
deriving DecidableEq, Repr

/-- The `devices` dictionary, as an association list keyed by device id. -/
abbrev DeviceMap := List (String × Device)

/-- In-place update of the value stored at a present key, as Python's
`devices[device_id][...] = ...`; keys are untouched. -/
def setDevice (r : DeviceMap) (device_id : String) (d : Device) : DeviceMap :=
  r.map (fun p => if p.1 = device_id then (device_id, d) else p)

/-- The `gesture_settings` dictionary (server.py lines 68-73).
`hold_time` is in integral time units (µs: the Python default of 1.5 s
is 1500000). -/
structure GestureSettings where
  enabled : Bool
  confidence : ℚ
  hold_time : Int
  max_hands : Nat
deriving DecidableEq, Repr

/-- The process-wide mutable state of server.py: the `devices` dict, the
`current_device` global and the `gesture_settings` dict. -/
structure ServerState where
  devices : DeviceMap
  current_device : String
  gesture_settings : GestureSettings
deriving DecidableEq, Repr

/-- The initial `devices` dictionary (server.py lines 37-62). -/
def initialDevices : DeviceMap :=
  [("device_1", { name := "Living Room Light", state := false,
                  category := "light", last_updated := none }),
   ("device_2", { name := "Bedroom Fan", state := false,
                  category := "fan", last_updated := none }),
   ("device_3", { name := "Kitchen Light", state := false,
                  category := "light", last_updated := none }),
   ("device_4", { name := "TV", state := false,
                  category := "tv", last_updated := none })]

/-- The initial `gesture_settings` (server.py lines 68-73). -/
def initialSettings : GestureSettings :=
  { enabled := true, confidence := 7/10, hold_time := 1500000, max_hands := 1 }

/-- The process state right after startup (server.py lines 37-73). -/
def initialState : ServerState :=
  { devices := initialDevices, current_device := "device_1",
    gesture_settings := initialSettings }

/-- A broadcast message sent through `ConnectionManager.broadcast`. -/
inductive Event where
  | device_update (device_id : String) (device : Device)
  | device_selected (device_id : String)
deriving DecidableEq, Repr

/-- POST `/api/devices/{device_id}/toggle` (server.py lines 139-164):
unknown id → 404 with no mutation and no broadcast; otherwise flip the
state, stamp the timestamp and broadcast the updated device.  Returns the
new state, the success flag of the JSON response, and the broadcasts. -/
def toggle_device (st : ServerState) (device_id : String) (now : Int) :
    ServerState × Bool × List Event :=
  match st.devices.lookup device_id with
  | none => (st, false, [])
  | some d =>
      let d2 : Device := { d with state := !d.state, last_updated := some now }
      ({ st with devices := setDevice st.devices device_id d2 }, true,
       [Event.device_update device_id d2])

/-- POST `/api/devices/{device_id}/state` (server.py lines 167-192):
unknown id → 404 with no mutation and no broadcast; otherwise store the
requested state, stamp the timestamp and broadcast the updated device. -/
def set_device_state (st : ServerState) (device_id : String) (state : Bool)
    (now : Int) : ServerState × Bool × List Event :=
  match st.devices.lookup device_id with
  | none => (st, false, [])
  | some d =>
      let d2 : Device := { d with state := state, last_updated := some now }
      ({ st with devices := setDevice st.devices device_id d2 }, true,
       [Event.device_update device_id d2])

/-- POST `/api/select-device/{device_id}` (server.py lines 195-217):
unknown id → 404 with no mutation and no broadcast; otherwise repoint
`current_device` and broadcast the selection. -/
def select_device (st : ServerState) (device_id : String) :
    ServerState × Bool × List Event :=
  if (st.devices.lookup device_id).isSome then
    ({ st with current_device := device_id }, true,
     [Event.device_selected device_id])
  else
    (st, false, [])

/-- The JSON body of a POST `/api/settings` request: each key may or may
not be present. -/
structure SettingsUpdate where
  enabled : Option Bool
  confidence : Option ℚ
  hold_time : Option Int
  max_hands : Option Nat
deriving DecidableEq, Repr

/-- POST `/api/settings` (server.py lines 229-244).  The handler reads
only the keys `enabled`, `confidence` and `hold_time`; a `max_hands` key
in the body is ignored. -/
def update_settings (st : ServerState) (data : SettingsUpdate) : ServerState :=
  let s0 := st.gesture_settings
  let s1 := match data.enabled with
    | some v => { s0 with enabled := v }
    | none => s0
  let s2 := match data.confidence with
    | some v => { s1 with confidence := v }
    | none => s1
  let s3 := match data.hold_time with
    | some v => { s2 with hold_time := v }
    | none => s2
  { st with gesture_settings := s3 }

/-- GET `/api/settings` (server.py lines 220-226). -/
def get_settings (st : ServerState) : GestureSettings :=
  st.gesture_settings

/-- Per-connection state of the websocket handler (server.py lines
275-276): `last_gesture` and `gesture_start_time`. -/
structure SessionState where
  last_gesture : Option String
  gesture_start_time : Option Int
deriving DecidableEq, Repr

/-- The session state right after a connection is accepted. -/
def initialSession : SessionState :=
  { last_gesture := none, gesture_start_time := none }

/-- The `gesture_result` JSON response assembled for one frame (server.py
lines 300-306 plus the optional keys added later in the handler). -/
structure FrameResponse where
  gesture : String
  finger_count : Nat
  hand_detected : Bool
  timestamp : Int
  hold_duration : Option Int
  action_triggered : Option String
  device_id : Option String
  device_selected : Option String
deriving DecidableEq, Repr

/-- The gestures subject to hold confirmation (server.py line 323). -/
def interestSet : List String := ["FIST (OFF)", "OPEN PALM (ON)"]

/-- The guard of the device-selection branch (server.py lines 310-312):
the finger count is 1-4, the mapped key is in the registry, and it is not
the current device already. -/
def selCond (st : ServerState) (finger_count : Nat) : Prop :=
  (finger_count = 1 ∨ finger_count = 2 ∨ finger_count = 3 ∨
    finger_count = 4) ∧
  (st.devices.lookup ("device_" ++ toString finger_count)).isSome = true ∧
  st.current_device ≠ "device_" ++ toString finger_count

instance (st : ServerState) (finger_count : Nat) :
    Decidable (selCond st finger_count) := by
  unfold selCond
  infer_instance

/-- The part of the websocket frame branch after classification
(server.py lines 300-358), with the classified gesture and finger count
as inputs: handle instant device selection for 1-4 fingers, run the hold
gate for fist/open palm, mutate the shared state on a confirmed hold, and
collect the broadcasts in emission order.  `none` models an uncaught
exception (a `TypeError` on a missing start time, or a `KeyError` on a
missing current device).  All `datetime.now()` calls of the iteration are
abstracted to the single instant `now`. -/
def process_classified (st : ServerState) (sess : SessionState)
    (gesture : String) (finger_count : Nat) (hand_detected : Bool)
    (now : Int) :
    Option (ServerState × SessionState × FrameResponse × List Event) :=
  let response : FrameResponse :=
    { gesture := gesture, finger_count := finger_count,
      hand_detected := hand_detected, timestamp := now,
      hold_duration := none, action_triggered := none,
      device_id := none, device_selected := none }
  -- device selection for 1-4 fingers (lines 308-320)
  let device_key := "device_" ++ toString finger_count
  let (st2, response2, events) :=
    if selCond st finger_count then
      ({ st with current_device := device_key },
       { response with device_selected := some device_key },
       [Event.device_selected device_key])
    else (st, response, [])
  -- hold gate for ON/OFF commands (lines 322-358)
  if gesture ∈ interestSet then
    if sess.last_gesture = some gesture then
      -- a `None` start time here would be a TypeError in the source
      match sess.gesture_start_time with
      | none => none
      | some t0 =>
        let hold_duration := now - t0
        let response3 := { response2 with hold_duration := some hold_duration }
        if hold_duration ≥ st2.gesture_settings.hold_time then
          -- `devices[current_device]` (a KeyError if the key were absent)
          match st2.devices.lookup st2.current_device with
          | none => none
          | some d =>
            -- the outer membership guard ensures gesture is one of the two
            let newState := if gesture = "OPEN PALM (ON)" then true else false
            let action := if gesture = "OPEN PALM (ON)" then "turned_on"
              else "turned_off"
            let d2 : Device := { d with
              state := newState,
              last_updated := some now }
            some ({ st2 with
                      devices := setDevice st2.devices st2.current_device d2 },
                  { sess with gesture_start_time := some now },
                  { response3 with
                    action_triggered := some action,
                    device_id := some st2.current_device },
                  events ++ [Event.device_update st2.current_device d2])
        else
          some (st2, sess, response3, events)
    else
      some (st2,
            { last_gesture := some gesture, gesture_start_time := some now },
            response2, events)
  else
    some (st2, { last_gesture := none, gesture_start_time := none },
          response2, events)

/-- One iteration of the websocket frame branch as a whole: classify the
landmarks, then run the selection and hold-gate logic. -/
def process_frame (st : ServerState) (sess : SessionState)
    (landmarks : List Landmark) (now : Int) :
    Option (ServerState × SessionState × FrameResponse × List Event) := do
  let gesture ← detect_gesture landmarks
  let finger_count ← if landmarks.length > 0 then count_fingers landmarks
    else pure 0
  process_classified st sess gesture finger_count
    (landmarks.length > 0) now

/-- Sequential processing of a list of timestamped frames by one session
(the `while True` receive loop of the websocket handler restricted to
frame messages), collecting each frame's response and broadcasts. -/
def run (st : ServerState) (sess : SessionState) :
    List (List Landmark × Int) →
    Option (ServerState × SessionState × List (FrameResponse × List Event))
  | [] => some (st, sess, [])
  | (l, t) :: frames => do
      let (st1, sess1, resp, evs) ← process_frame st sess l t
      let (st2, sess2, rest) ← run st1 sess1 frames
      pure (st2, sess2, (resp, evs) :: rest)

/-- The same server state with only the stored enabled flag replaced. -/
def setEnabled (st : ServerState) (b : Bool) : ServerState :=
  { st with gesture_settings := { st.gesture_settings with enabled := b } }

/-- The ideal fire schedule of the hold gate, written from the spec's
transition table: holding since `anchor`, a frame at time `t` fires
exactly when `t - anchor ≥ threshold`, and a fire restarts the timer at
`t` so the gesture must be held for another full threshold to fire
again. -/
def holdFireSchedule (threshold anchor : Int) : List Int → List Bool
  | [] => []
  | t :: ts =>
      if t - anchor ≥ threshold then
        true :: holdFireSchedule threshold t ts
      else
        false :: holdFireSchedule threshold anchor ts

/-- On a non-empty landmark list, `detect_gesture` is `count_fingers`
followed by the pure lookup table. -/
lemma detect_gesture_nonempty (l : List Landmark) (h0 : ¬ l.length = 0) :
    detect_gesture l = (count_fingers l).map specGestureLookup := by
  rw [detect_gesture, if_neg h0]
  cases hc : count_fingers l with
  | none => rfl
  | some c =>
    simp only [Option.map_some', bind, Option.some_bind, specGestureLookup]
    split_ifs <;> rfl

/-- Successful finger counts of `count_fingers` are at most 5. -/
lemma count_fingers_le_five (l : List Landmark) (c : Nat)
    (h : count_fingers l = some c) : c ≤ 5 := by
  rw [count_fingers] at h
  split at h
  · simp only [Option.some_inj] at h
    omega
  · simp only [bind, Option.bind_eq_some, pure, Option.some_inj] at h
    obtain ⟨t4, -, t3, -, t8, -, j6, -, t12, -, j10, -, t16, -, j14, -,
      t20, -, j18, -, hc⟩ := h
    subst hc
    exact le_trans (List.count_le_length _ _) (by simp)

/-- A landmark list of length 21 always yields a successful count. -/
lemma count_fingers_eval (l : List Landmark) (h : l.length = 21) :
    count_fingers l = some
      ((if (l.get ⟨4, by omega⟩).x < (l.get ⟨3, by omega⟩).x then 1 else 0) +
       ((if (l.get ⟨8, by omega⟩).y < (l.get ⟨6, by omega⟩).y then 1 else 0) +
        ((if (l.get ⟨12, by omega⟩).y < (l.get ⟨10, by omega⟩).y then 1 else 0) +
         ((if (l.get ⟨16, by omega⟩).y < (l.get ⟨14, by omega⟩).y then 1 else 0) +
          (if (l.get ⟨20, by omega⟩).y < (l.get ⟨18, by omega⟩).y then 1 else 0))))) := by
  have h0 : ¬ l.length = 0 := by omega
  rw [count_fingers, if_neg h0,
    List.getElem?_eq_getElem (show 4 < l.length by omega),
    List.getElem?_eq_getElem (show 3 < l.length by omega),
    List.getElem?_eq_getElem (show 8 < l.length by omega),
    List.getElem?_eq_getElem (show 6 < l.length by omega),
    List.getElem?_eq_getElem (show 12 < l.length by omega),
    List.getElem?_eq_getElem (show 10 < l.length by omega),
    List.getElem?_eq_getElem (show 16 < l.length by omega),
    List.getElem?_eq_getElem (show 14 < l.length by omega),
    List.getElem?_eq_getElem (show 20 < l.length by omega),
    List.getElem?_eq_getElem (show 18 < l.length by omega)]
  simp only [bind, Option.some_bind, pure, Option.some_inj, List.get_eq_getElem]
  split_ifs <;> rfl

/-- C1: gesture classification is a pure lookup on the count of extended
fingers: on every 21-point landmark list `detect_gesture` returns the
symbol selected by the finger count (0 → fist, 5 → open palm, 1-4 → the
finger-count symbols), the empty list yields the no-hand symbol, and the
result is always one of the 8 defined symbols. -/
theorem detect_gesture_pure_lookup (l : List Landmark) (h : l.length = 21) :
    detect_gesture [] = some "No Hand" ∧
    ∃ c, c ≤ 5 ∧ count_fingers l = some c ∧
      detect_gesture l = some (specGestureLookup c) ∧
      (c = 0 → detect_gesture l = some "FIST (OFF)") ∧
      (c = 5 → detect_gesture l = some "OPEN PALM (ON)") ∧
      (c = 1 → detect_gesture l = some "ONE FINGER") ∧
      (c = 2 → detect_gesture l = some "TWO FINGERS") ∧
      (c = 3 → detect_gesture l = some "THREE FINGERS") ∧
      (c = 4 → detect_gesture l = some "FOUR FINGERS") ∧
      specGestureLookup c ∈ gestureSymbols := by
  have h0 : ¬ l.length = 0 := by omega
  obtain ⟨c, hc⟩ : ∃ c, count_fingers l = some c := ⟨_, count_fingers_eval l h⟩
  have hc5 := count_fingers_le_five l c hc
  have hd : detect_gesture l = some (specGestureLookup c) := by
    rw [detect_gesture_nonempty l h0, hc, Option.map_some']
  refine ⟨rfl, c, hc5, hc, hd, ?_, ?_, ?_, ?_, ?_, ?_, ?_⟩
  · intro h1; rw [hd]; subst h1; rfl
  · intro h1; rw [hd]; subst h1; rfl
  · intro h1; rw [hd]; subst h1; rfl
  · intro h1; rw [hd]; subst h1; rfl
  · intro h1; rw [hd]; subst h1; rfl
  · intro h1; rw [hd]; subst h1; rfl
  · interval_cases c <;> decide

/-- Witness for C1: the all-flexed hand instantiates the theorem. -/
theorem detect_gesture_pure_lookup_witness :
    fistLandmarks.length = 21 ∧
    (detect_gesture [] = some "No Hand" ∧
     ∃ c, c ≤ 5 ∧ count_fingers fistLandmarks = some c ∧
       detect_gesture fistLandmarks = some (specGestureLookup c) ∧
       (c = 0 → detect_gesture fistLandmarks = some "FIST (OFF)") ∧
       (c = 5 → detect_gesture fistLandmarks = some "OPEN PALM (ON)") ∧
       (c = 1 → detect_gesture fistLandmarks = some "ONE FINGER") ∧
       (c = 2 → detect_gesture fistLandmarks = some "TWO FINGERS") ∧
       (c = 3 → detect_gesture fistLandmarks = some "THREE FINGERS") ∧
       (c = 4 → detect_gesture fistLandmarks = some "FOUR FINGERS") ∧
       specGestureLookup c ∈ gestureSymbols) :=
  ⟨by decide, detect_gesture_pure_lookup fistLandmarks (by decide)⟩

/-- C4: on every 21-point landmark list the finger count is the number of
extended fingers, where the thumb is extended exactly when its tip's x is
strictly below the x of the landmark one index before it, and each other
finger exactly when its tip's y is strictly below the y of the landmark
two positions before it; the count lies in 0..5. -/
theorem count_fingers_extension_rule (l : List Landmark) (h : l.length = 21) :
    ∃ n, count_fingers l = some n ∧ n ≤ 5 ∧
      n = (if (l.get ⟨4, by omega⟩).x < (l.get ⟨3, by omega⟩).x then 1 else 0)
        + (if (l.get ⟨8, by omega⟩).y < (l.get ⟨6, by omega⟩).y then 1 else 0)
        + (if (l.get ⟨12, by omega⟩).y < (l.get ⟨10, by omega⟩).y then 1 else 0)
        + (if (l.get ⟨16, by omega⟩).y < (l.get ⟨14, by omega⟩).y then 1 else 0)
        + (if (l.get ⟨20, by omega⟩).y < (l.get ⟨18, by omega⟩).y then 1 else 0) :=
  ⟨_, count_fingers_eval l h,
   count_fingers_le_five _ _ (count_fingers_eval l h), by ring⟩

/-- Witness for C4: the two-finger hand instantiates the theorem. -/
theorem count_fingers_extension_rule_witness :
    twoFingerLandmarks.length = 21 ∧
    ∃ n, count_fingers twoFingerLandmarks = some n ∧ n ≤ 5 ∧
      n = (if (twoFingerLandmarks.get ⟨4, by decide⟩).x <
             (twoFingerLandmarks.get ⟨3, by decide⟩).x then 1 else 0)
        + (if (twoFingerLandmarks.get ⟨8, by decide⟩).y <
             (twoFingerLandmarks.get ⟨6, by decide⟩).y then 1 else 0)
        + (if (twoFingerLandmarks.get ⟨12, by decide⟩).y <
             (twoFingerLandmarks.get ⟨10, by decide⟩).y then 1 else 0)
        + (if (twoFingerLandmarks.get ⟨16, by decide⟩).y <
             (twoFingerLandmarks.get ⟨14, by decide⟩).y then 1 else 0)
        + (if (twoFingerLandmarks.get ⟨20, by decide⟩).y <
             (twoFingerLandmarks.get ⟨18, by decide⟩).y then 1 else 0) :=
  ⟨by decide, count_fingers_extension_rule twoFingerLandmarks (by decide)⟩

/-- C7: the defensive catch-all branch is unreachable: whenever
`detect_gesture` returns a symbol, that symbol is one of the 7 producible
ones and never the string of the unreachable branch. -/
theorem unknown_never_produced (l : List Landmark) (s : String)
    (h : detect_gesture l = some s) :
    s ∈ producibleSymbols ∧ s ≠ "Unknown" := by
  by_cases h0 : l.length = 0
  · rw [detect_gesture, if_pos h0] at h
    injection h with h
    subst h
    decide
  · rw [detect_gesture_nonempty l h0] at h
    cases hc : count_fingers l with
    | none => rw [hc] at h; simp at h
    | some c =>
      rw [hc, Option.map_some', Option.some_inj] at h
      subst h
      have hc5 := count_fingers_le_five l c hc
      interval_cases c <;> decide

/-- Witness for C7: the open-palm hand instantiates the theorem. -/
theorem unknown_never_produced_witness :
    detect_gesture palmLandmarks = some "OPEN PALM (ON)" ∧
    ("OPEN PALM (ON)" ∈ producibleSymbols ∧ "OPEN PALM (ON)" ≠ "Unknown") :=
  ⟨by decide, unknown_never_produced palmLandmarks "OPEN PALM (ON)" (by decide)⟩

/-- C6: toggle, set-state and select-device on an identifier missing from
the registry each report failure and leave the whole server state
untouched, emitting no broadcast. -/
theorem unknown_device_not_found (st : ServerState) (device_id : String)
    (b : Bool) (now : Int) (h : st.devices.lookup device_id = none) :
    toggle_device st device_id now = (st, false, []) ∧
    set_device_state st device_id b now = (st, false, []) ∧
    select_device st device_id = (st, false, []) := by
  refine ⟨?_, ?_, ?_⟩ <;>
    simp [toggle_device, set_device_state, select_device, h]

/-- Witness for C6: an id absent from the initial registry. -/
theorem unknown_device_not_found_witness :
    initialState.devices.lookup "device_9" = none ∧
    (toggle_device initialState "device_9" 3 = (initialState, false, []) ∧
     set_device_state initialState "device_9" true 3 = (initialState, false, []) ∧
     select_device initialState "device_9" = (initialState, false, [])) :=
  ⟨rfl, unknown_device_not_found initialState "device_9" true 3 rfl⟩

/-- C8 (amended): the settings-update handler reflects a supplied value
for the enabled flag, the confidence threshold and the hold-time
threshold in a subsequent get; a supplied max-hands value is ignored
(shown separately to be dropped). -/
theorem settings_update_reflected (st : ServerState) (b : Bool) (c : ℚ)
    (t : Int) :
    (get_settings (update_settings st
      { enabled := some b, confidence := none, hold_time := none,
        max_hands := none })).enabled = b ∧
    (get_settings (update_settings st
      { enabled := none, confidence := some c, hold_time := none,
        max_hands := none })).confidence = c ∧
    (get_settings (update_settings st
      { enabled := none, confidence := none, hold_time := some t,
        max_hands := none })).hold_time = t :=
  ⟨rfl, rfl, rfl⟩

/-- Counterexample for C8 as stated: an update request supplying
max-hands 2 leaves the stored max-hands at 1, so the subsequent get does
not reflect the supplied value. -/
theorem settings_update_max_hands_dropped :
    (get_settings (update_settings initialState
      { enabled := none, confidence := none, hold_time := none,
        max_hands := some 2 })).max_hands = 1 ∧
    (get_settings (update_settings initialState
      { enabled := none, confidence := none, hold_time := none,
        max_hands := some 2 })).max_hands ≠ 2 :=
  ⟨rfl, by decide⟩

/-- Classification bridge: once the landmarks classify to a gesture and
a finger count, the frame iteration is the post-classification logic. -/
lemma process_frame_eq_classified (st : ServerState) (sess : SessionState)
    (l : List Landmark) (now : Int) (g : String) (c : Nat)
    (hg : detect_gesture l = some g) (hc : count_fingers l = some c)
    (hpos : l.length > 0) :
    process_frame st sess l now = process_classified st sess g c true now := by
  rw [process_frame, hg]
  simp only [bind, Option.some_bind, if_pos hpos, hc,
    decide_eq_true hpos]

/-- A finger count of 0 or 5 never satisfies the selection guard. -/
lemma selCond_not_of_interest_count (st : ServerState) (c : Nat)
    (hc : c = 0 ∨ c = 5) : ¬ selCond st c := by
  rintro ⟨h1, -, -⟩
  rcases hc with rfl | rfl <;> simp at h1

/-- Evaluation of the post-classification logic for a gesture outside the
interest set: only the selection branch can act, the hold state resets. -/
lemma process_classified_not_interest (st : ServerState)
    (sess : SessionState) (g : String) (c : Nat) (h : Bool) (now : Int)
    (hgi : g ∉ interestSet) :
    process_classified st sess g c h now =
      if selCond st c then
        some ({ st with current_device := "device_" ++ toString c },
              { last_gesture := none, gesture_start_time := none },
              { gesture := g, finger_count := c, hand_detected := h,
                timestamp := now, hold_duration := none,
                action_triggered := none, device_id := none,
                device_selected := some ("device_" ++ toString c) },
              [Event.device_selected ("device_" ++ toString c)])
      else
        some (st, { last_gesture := none, gesture_start_time := none },
              { gesture := g, finger_count := c, hand_detected := h,
                timestamp := now, hold_duration := none,
                action_triggered := none, device_id := none,
                device_selected := none },
              []) := by
  by_cases hs : selCond st c <;>
    simp only [process_classified, if_pos, if_neg, hs, hgi, if_true,
      if_false, ite_true, ite_false]

/-- Evaluation of the post-classification logic when a gesture of
interest is first observed (no selection): start holding it. -/
lemma process_classified_interest_new (st : ServerState)
    (sess : SessionState) (g : String) (c : Nat) (h : Bool) (now : Int)
    (hgi : g ∈ interestSet) (hnew : ¬ sess.last_gesture = some g)
    (hnosel : ¬ selCond st c) :
    process_classified st sess g c h now =
      some (st, { last_gesture := some g, gesture_start_time := some now },
            { gesture := g, finger_count := c, hand_detected := h,
              timestamp := now, hold_duration := none,
              action_triggered := none, device_id := none,
              device_selected := none },
            []) := by
  simp only [process_classified, if_neg hnosel, if_pos hgi, if_neg hnew]

/-- Evaluation of the post-classification logic while a gesture of
interest is being held below the threshold: nothing changes, the elapsed
duration is reported. -/
lemma process_classified_hold_stay (st : ServerState)
    (sess : SessionState) (g : String) (c : Nat) (h : Bool) (now t0 : Int)
    (hgi : g ∈ interestSet) (hsame : sess.last_gesture = some g)
    (ht0 : sess.gesture_start_time = some t0)
    (hnosel : ¬ selCond st c)
    (hlt : ¬ now - t0 ≥ st.gesture_settings.hold_time) :
    process_classified st sess g c h now =
      some (st, sess,
            { gesture := g, finger_count := c, hand_detected := h,
              timestamp := now, hold_duration := some (now - t0),
              action_triggered := none, device_id := none,
              device_selected := none },
            []) := by
  simp only [process_classified, if_neg hnosel, if_pos hgi, if_pos hsame,
    ht0, if_neg hlt]

/-- Evaluation of the post-classification logic when the hold duration
crosses the threshold: the current device is mutated and broadcast, and
the hold timer restarts at the current instant. -/
lemma process_classified_hold_fire (st : ServerState)
    (sess : SessionState) (g : String) (c : Nat) (h : Bool) (now t0 : Int)
    (d : Device)
    (hgi : g ∈ interestSet) (hsame : sess.last_gesture = some g)
    (ht0 : sess.gesture_start_time = some t0)
    (hnosel : ¬ selCond st c)
    (hge : now - t0 ≥ st.gesture_settings.hold_time)
    (hd : st.devices.lookup st.current_device = some d) :
    process_classified st sess g c h now =
      some ({ st with
                devices := setDevice st.devices st.current_device
                  { d with
                    state := if g = "OPEN PALM (ON)" then true else false,
                    last_updated := some now } },
            { sess with gesture_start_time := some now },
            { gesture := g, finger_count := c, hand_detected := h,
              timestamp := now, hold_duration := some (now - t0),
              action_triggered := some (if g = "OPEN PALM (ON)" then
                "turned_on" else "turned_off"),
              device_id := some st.current_device,
              device_selected := none },
            [Event.device_update st.current_device
              { d with
                state := if g = "OPEN PALM (ON)" then true else false,
                last_updated := some now }]) := by
  simp only [process_classified, if_neg hnosel, if_pos hgi, if_pos hsame,
    ht0, if_pos hge, hd]
  rfl

/-- The update `setDevice` only changes stored values: presence of every key is
preserved. -/
lemma lookup_setDevice_isSome (r : DeviceMap) (i j : String) (d : Device) :
    ((setDevice r i d).lookup j).isSome = (r.lookup j).isSome := by
  induction r with
  | nil => rfl
  | cons p r ih =>
    obtain ⟨k, v⟩ := p
    simp only [setDevice, List.map_cons] at ih ⊢
    by_cases hki : k = i
    · subst hki
      rw [if_pos rfl]
      by_cases hjk : j = k
      · subst hjk
        simp [List.lookup]
      · have hbeq : (j == k) = false := beq_eq_false_iff_ne.mpr hjk
        simp [List.lookup, hbeq, ih]
    · rw [if_neg (by simpa using hki)]
      by_cases hjk : j = k
      · subst hjk
        simp [List.lookup]
      · have hbeq : (j == k) = false := beq_eq_false_iff_ne.mpr hjk
        simp [List.lookup, hbeq, ih]

/-- While a gesture of interest is held continuously, the run fires
exactly on the frames selected by the ideal schedule, restarting the
anchor at each fire. -/
lemma run_holding (lg : List Landmark) (g : String) (cg : Nat)
    (threshold : Int)
    (hg : detect_gesture lg = some g) (hc : count_fingers lg = some cg)
    (hpos : lg.length > 0) (hgi : g ∈ interestSet) (hcg : cg = 0 ∨ cg = 5) :
    ∀ (ts : List Int) (st : ServerState) (anchor : Int),
      (st.devices.lookup st.current_device).isSome = true →
      st.gesture_settings.hold_time = threshold →
      ∃ st2 sess2 results,
        run st { last_gesture := some g, gesture_start_time := some anchor }
          (ts.map (fun t => (lg, t))) = some (st2, sess2, results) ∧
        results.map (fun r => (r.1).action_triggered) =
          (holdFireSchedule threshold anchor ts).map
            (fun b => if b then
                some (if g = "OPEN PALM (ON)" then "turned_on"
                  else "turned_off")
              else none) := by
  intro ts
  induction ts with
  | nil =>
    intro st anchor hdev hthr
    exact ⟨st, _, [], rfl, rfl⟩
  | cons t ts ih =>
    intro st anchor hdev hthr
    have hnosel : ¬ selCond st cg := selCond_not_of_interest_count st cg hcg
    by_cases hfire : t - anchor ≥ threshold
    · obtain ⟨d, hd⟩ := Option.isSome_iff_exists.mp hdev
      have hstep := process_classified_hold_fire st
        { last_gesture := some g, gesture_start_time := some anchor }
        g cg true t anchor d hgi rfl rfl hnosel (by rw [hthr]; exact hfire) hd
      obtain ⟨st2, sess2, results, hrun, hmap⟩ :=
        ih ({ st with
              devices := setDevice st.devices st.current_device
                { d with
                  state := if g = "OPEN PALM (ON)" then true else false,
                  last_updated := some t } }) t
          (by rw [lookup_setDevice_isSome]; exact hdev) hthr
      have hrunc : run st
          { last_gesture := some g, gesture_start_time := some anchor }
          (((lg, t)) :: ts.map (fun u => (lg, u))) = some (st2, sess2,
            ({ gesture := g, finger_count := cg, hand_detected := true,
               timestamp := t, hold_duration := some (t - anchor),
               action_triggered := some (if g = "OPEN PALM (ON)" then
                 "turned_on" else "turned_off"),
               device_id := some st.current_device,
               device_selected := none },
             [Event.device_update st.current_device
               { d with
                 state := if g = "OPEN PALM (ON)" then true else false,
                 last_updated := some t }]) :: results) := by
        simp only [run, bind,
          process_frame_eq_classified st _ lg t g cg hg hc hpos, hstep,
          Option.some_bind, hrun]
        rfl
      refine ⟨st2, sess2, _, hrunc, ?_⟩
      simp only [List.map_cons, holdFireSchedule, if_pos hfire]
      simp [hmap]
    · have hstep := process_classified_hold_stay st
        { last_gesture := some g, gesture_start_time := some anchor }
        g cg true t anchor hgi rfl rfl hnosel (by rw [hthr]; exact hfire)
      obtain ⟨st2, sess2, results, hrun, hmap⟩ := ih st anchor hdev hthr
      have hrunc : run st
          { last_gesture := some g, gesture_start_time := some anchor }
          (((lg, t)) :: ts.map (fun u => (lg, u))) = some (st2, sess2,
            ({ gesture := g, finger_count := cg, hand_detected := true,
               timestamp := t, hold_duration := some (t - anchor),
               action_triggered := none, device_id := none,
               device_selected := none }, ([] : List Event)) :: results) := by
        simp only [run, bind,
          process_frame_eq_classified st _ lg t g cg hg hc hpos, hstep,
          Option.some_bind, hrun]
        rfl
      refine ⟨st2, sess2, _, hrunc, ?_⟩
      simp only [List.map_cons, holdFireSchedule, if_neg hfire]
      simp [hmap]

/-- C2: with a gesture of interest held continuously from a fresh
session, the hold gate fires the corresponding command exactly on the
frames of the ideal schedule: never on the starting frame, then exactly
when the elapsed time since the hold started reaches the threshold, with
the timer restarting at each fire so each further fire needs another full
threshold; frames in between carry no action. -/
theorem hold_gate_fire_schedule (st : ServerState) (lg : List Landmark)
    (g : String) (cg : Nat) (t0 : Int) (ts : List Int)
    (hg : detect_gesture lg = some g)
    (hc : count_fingers lg = some cg)
    (hpos : lg.length > 0)
    (hgi : g ∈ interestSet)
    (hcg : cg = 0 ∨ cg = 5)
    (hdev : (st.devices.lookup st.current_device).isSome = true) :
    ∃ st2 sess2 results,
      run st initialSession ((lg, t0) :: ts.map (fun t => (lg, t))) =
        some (st2, sess2, results) ∧
      results.map (fun r => (r.1).action_triggered) =
        none :: (holdFireSchedule st.gesture_settings.hold_time t0 ts).map
          (fun b => if b then
              some (if g = "OPEN PALM (ON)" then "turned_on"
                else "turned_off")
            else none) := by
  have hnosel : ¬ selCond st cg := selCond_not_of_interest_count st cg hcg
  have hstep := process_classified_interest_new st initialSession g cg true
    t0 hgi (by simp [initialSession]) hnosel
  obtain ⟨st2, sess2, results, hrun, hmap⟩ :=
    run_holding lg g cg st.gesture_settings.hold_time hg hc hpos hgi hcg
      ts st t0 hdev rfl
  have hrunc : run st initialSession
      ((lg, t0) :: ts.map (fun t => (lg, t))) = some (st2, sess2,
        ({ gesture := g, finger_count := cg, hand_detected := true,
           timestamp := t0, hold_duration := none,
           action_triggered := none, device_id := none,
           device_selected := none }, ([] : List Event)) :: results) := by
    simp only [run, bind,
      process_frame_eq_classified st _ lg t0 g cg hg hc hpos, hstep,
      Option.some_bind, hrun]
    rfl
  refine ⟨st2, sess2, _, hrunc, ?_⟩
  simp [hmap]

/-- Witness for C2: a fist held from time 0 over frames every half
second with the default 1.5 s threshold fires exactly twice, at 1.5 s and
at 3.0 s, and on no frame in between. -/
theorem hold_gate_fire_schedule_witness :
    detect_gesture fistLandmarks = some "FIST (OFF)" ∧
    count_fingers fistLandmarks = some 0 ∧
    fistLandmarks.length > 0 ∧
    "FIST (OFF)" ∈ interestSet ∧
    ((0:Nat) = 0 ∨ (0:Nat) = 5) ∧
    (initialState.devices.lookup initialState.current_device).isSome = true ∧
    holdFireSchedule initialState.gesture_settings.hold_time 0
      [500000, 1000000, 1500000, 2000000, 2500000, 3000000] =
      [false, false, true, false, false, true] ∧
    (∃ st2 sess2 results,
      run initialState initialSession
        ((fistLandmarks, 0) ::
          ([500000, 1000000, 1500000, 2000000, 2500000, 3000000] :
            List Int).map (fun t => (fistLandmarks, t))) =
        some (st2, sess2, results) ∧
      results.map (fun r => (r.1).action_triggered) =
        none :: (holdFireSchedule initialState.gesture_settings.hold_time 0
          [500000, 1000000, 1500000, 2000000, 2500000, 3000000]).map
          (fun b => if b then
              some (if "FIST (OFF)" = "OPEN PALM (ON)" then "turned_on"
                else "turned_off")
            else none)) :=
  ⟨by decide, by decide, by decide, by decide, by decide, rfl, by decide,
   hold_gate_fire_schedule initialState fistLandmarks "FIST (OFF)" 0 0
     [500000, 1000000, 1500000, 2000000, 2500000, 3000000]
     (by decide) (by decide) (by decide) (by decide) (by decide) rfl⟩

/-- One step of `run`, given the frame's outcome and the rest of the
run. -/
lemma run_cons {st : ServerState} {sess : SessionState} {l : List Landmark}
    {t : Int} {frames : List (List Landmark × Int)} {st1 : ServerState}
    {sess1 : SessionState} {resp : FrameResponse} {evs : List Event}
    {st2 : ServerState} {sess2 : SessionState}
    {results : List (FrameResponse × List Event)}
    (h1 : process_frame st sess l t = some (st1, sess1, resp, evs))
    (h2 : run st1 sess1 frames = some (st2, sess2, results)) :
    run st sess ((l, t) :: frames) =
      some (st2, sess2, (resp, evs) :: results) := by
  simp only [run, bind, h1, Option.some_bind, h2]
  rfl

/-- An empty landmark list classifies to the no-hand symbol with count
0 and no hand detected. -/
lemma process_frame_empty (st : ServerState) (sess : SessionState)
    (now : Int) :
    process_frame st sess [] now =
      process_classified st sess "No Hand" 0 false now := rfl

/-- Only counts 0 and 5 classify to a gesture of interest. -/
lemma interest_count (c : Nat) (h : specGestureLookup c ∈ interestSet) :
    c = 0 ∨ c = 5 := by
  by_cases h0 : c = 0
  · exact Or.inl h0
  by_cases h5 : c = 5
  · exact Or.inr h5
  exfalso
  unfold specGestureLookup at h
  rw [if_neg h0, if_neg h5] at h
  split_ifs at h <;> simp [interestSet] at h

/-- From any session not currently holding `g`, two frames of `g` whose
spacing covers the threshold give no action on the first frame and a
fire on the second. -/
lemma run_refire (lg : List Landmark) (g : String) (cg : Nat)
    (hg : detect_gesture lg = some g) (hc : count_fingers lg = some cg)
    (hpos : lg.length > 0) (hgi : g ∈ interestSet) (hcg : cg = 0 ∨ cg = 5)
    (st1 : ServerState) (sess1 : SessionState) (t1 t2 : Int)
    (hnew : ¬ sess1.last_gesture = some g)
    (hdev : (st1.devices.lookup st1.current_device).isSome = true)
    (hth : t2 - t1 ≥ st1.gesture_settings.hold_time) :
    ∃ st2 sess2 r1 r2 evs2,
      run st1 sess1 [(lg, t1), (lg, t2)] =
        some (st2, sess2, [(r1, ([] : List Event)), (r2, evs2)]) ∧
      r1.action_triggered = none ∧
      r2.action_triggered =
        some (if g = "OPEN PALM (ON)" then "turned_on" else "turned_off") := by
  have hnosel := selCond_not_of_interest_count st1 cg hcg
  obtain ⟨d, hd⟩ := Option.isSome_iff_exists.mp hdev
  have e1 := (process_frame_eq_classified st1 sess1 lg t1 g cg hg hc
    hpos).trans (process_classified_interest_new st1 sess1 g cg true t1
      hgi hnew hnosel)
  have e2 := (process_frame_eq_classified st1
      { last_gesture := some g, gesture_start_time := some t1 } lg t2 g cg
      hg hc hpos).trans
    (process_classified_hold_fire st1
      { last_gesture := some g, gesture_start_time := some t1 } g cg true
      t2 t1 d hgi rfl rfl hnosel hth hd)
  exact ⟨_, _, _, _, _, run_cons e1 (run_cons e2 rfl), rfl, rfl⟩

/-- C3: any observation differing from the currently held gesture
restarts the hold timer from zero — a different gesture of interest
starts a fresh hold at the current instant, any other observation
(including no hand) clears the hold state — and no command fires on the
interrupting frame; after the one-frame interruption, a subsequent
unbroken full-threshold hold of the same gesture fires again. -/
theorem hold_interrupt_resets (st : ServerState) (sess : SessionState)
    (g g' : String) (l' lg : List Landmark) (c' cg : Nat)
    (tI t1 t2 : Int)
    (hheld : sess.last_gesture = some g)
    (hg' : detect_gesture l' = some g')
    (hc' : count_fingers l' = some c')
    (hne : g' ≠ g)
    (hg : detect_gesture lg = some g)
    (hc : count_fingers lg = some cg)
    (hpos : lg.length > 0)
    (hgi : g ∈ interestSet)
    (hcg : cg = 0 ∨ cg = 5)
    (hdev : (st.devices.lookup st.current_device).isSome = true)
    (hth : t2 - t1 ≥ st.gesture_settings.hold_time) :
    (∃ st1 sess1 resp1 evs1,
      process_frame st sess l' tI = some (st1, sess1, resp1, evs1) ∧
      resp1.action_triggered = none ∧
      st1.devices = st.devices ∧
      st1.gesture_settings = st.gesture_settings ∧
      sess1 = (if g' ∈ interestSet then
                 { last_gesture := some g', gesture_start_time := some tI }
               else
                 { last_gesture := none, gesture_start_time := none })) ∧
    (∃ st2 sess2 results,
      run st sess [(l', tI), (lg, t1), (lg, t2)] =
        some (st2, sess2, results) ∧
      results.map (fun r => (r.1).action_triggered) =
        [none, none,
         some (if g = "OPEN PALM (ON)" then "turned_on"
           else "turned_off")]) := by
  by_cases hl : l'.length = 0
  · -- the hand is lost for one frame
    have hl' : l' = [] := List.length_eq_zero.mp hl
    subst hl'
    have hg'' : g' = "No Hand" := by
      have h2 : (some "No Hand" : Option String) = some g' := hg'
      injection h2 with h2
      exact h2.symm
    subst hg''
    have hint : ¬ ("No Hand" ∈ interestSet) := by decide
    have hnosel : ¬ selCond st 0 := by
      rintro ⟨h1, -, -⟩
      simp at h1
    have e0 := (process_frame_empty st sess tI).trans
      ((process_classified_not_interest st sess "No Hand" 0 false tI
        hint).trans (if_neg hnosel))
    obtain ⟨st2, sess2, r1, r2, evs2, hrr, ha1, ha2⟩ :=
      run_refire lg g cg hg hc hpos hgi hcg st
        { last_gesture := none, gesture_start_time := none } t1 t2
        (by simp) hdev hth
    refine ⟨⟨_, _, _, _, e0, rfl, rfl, rfl, by rw [if_neg hint]⟩,
            ⟨_, _, _, run_cons e0 hrr, ?_⟩⟩
    simp [ha1, ha2]
  · have hpos' : l'.length > 0 := Nat.pos_of_ne_zero hl
    have hgs : g' = specGestureLookup c' := by
      have h2 := hg'
      rw [detect_gesture_nonempty l' hl, hc', Option.map_some'] at h2
      exact (Option.some.inj h2).symm
    by_cases hint : g' ∈ interestSet
    · -- a different gesture of interest starts a fresh hold
      have hc05 : c' = 0 ∨ c' = 5 := interest_count c' (hgs ▸ hint)
      have hnosel' : ¬ selCond st c' :=
        selCond_not_of_interest_count st c' hc05
      have hnew' : ¬ sess.last_gesture = some g' := by
        rw [hheld]
        intro h2
        exact hne (Option.some.inj h2).symm
      have e0 := (process_frame_eq_classified st sess l' tI g' c' hg' hc'
        hpos').trans
        (process_classified_interest_new st sess g' c' true tI hint hnew'
          hnosel')
      obtain ⟨st2, sess2, r1, r2, evs2, hrr, ha1, ha2⟩ :=
        run_refire lg g cg hg hc hpos hgi hcg st
          { last_gesture := some g', gesture_start_time := some tI } t1 t2
          (fun h2 => hne (Option.some.inj h2)) hdev hth
      refine ⟨⟨_, _, _, _, e0, rfl, rfl, rfl, by rw [if_pos hint]⟩,
              ⟨_, _, _, run_cons e0 hrr, ?_⟩⟩
      simp [ha1, ha2]
    · by_cases hsel : selCond st c'
      · -- an out-of-interest observation that also selects a device
        have e0 := (process_frame_eq_classified st sess l' tI g' c' hg'
          hc' hpos').trans
          ((process_classified_not_interest st sess g' c' true tI
            hint).trans (if_pos hsel))
        obtain ⟨st2, sess2, r1, r2, evs2, hrr, ha1, ha2⟩ :=
          run_refire lg g cg hg hc hpos hgi hcg
            { st with current_device := "device_" ++ toString c' }
            { last_gesture := none, gesture_start_time := none } t1 t2
            (by simp) hsel.2.1 hth
        refine ⟨⟨_, _, _, _, e0, rfl, rfl, rfl, by rw [if_neg hint]⟩,
                ⟨_, _, _, run_cons e0 hrr, ?_⟩⟩
        simp [ha1, ha2]
      · -- an out-of-interest observation with no selection
        have e0 := (process_frame_eq_classified st sess l' tI g' c' hg'
          hc' hpos').trans
          ((process_classified_not_interest st sess g' c' true tI
            hint).trans (if_neg hsel))
        obtain ⟨st2, sess2, r1, r2, evs2, hrr, ha1, ha2⟩ :=
          run_refire lg g cg hg hc hpos hgi hcg st
            { last_gesture := none, gesture_start_time := none } t1 t2
            (by simp) hdev hth
        refine ⟨⟨_, _, _, _, e0, rfl, rfl, rfl, by rw [if_neg hint]⟩,
                ⟨_, _, _, run_cons e0 hrr, ?_⟩⟩
        simp [ha1, ha2]

/-- Witness for C3: one frame of fist in the middle of an open-palm hold
resets the timer, and a subsequent 1.5 s palm hold fires `turned_on`. -/
theorem hold_interrupt_resets_witness :
    (({ last_gesture := some "OPEN PALM (ON)", gesture_start_time := some 0 } :
        SessionState).last_gesture = some "OPEN PALM (ON)") ∧
    detect_gesture fistLandmarks = some "FIST (OFF)" ∧
    count_fingers fistLandmarks = some 0 ∧
    ("FIST (OFF)" : String) ≠ "OPEN PALM (ON)" ∧
    detect_gesture palmLandmarks = some "OPEN PALM (ON)" ∧
    count_fingers palmLandmarks = some 5 ∧
    palmLandmarks.length > 0 ∧
    "OPEN PALM (ON)" ∈ interestSet ∧
    ((5:Nat) = 0 ∨ (5:Nat) = 5) ∧
    (initialState.devices.lookup initialState.current_device).isSome = true ∧
    ((1700000 : Int) - 200000 ≥ initialState.gesture_settings.hold_time) ∧
    ((∃ st1 sess1 resp1 evs1,
      process_frame initialState
        { last_gesture := some "OPEN PALM (ON)", gesture_start_time := some 0 }
        fistLandmarks 100000 = some (st1, sess1, resp1, evs1) ∧
      resp1.action_triggered = none ∧
      st1.devices = initialState.devices ∧
      st1.gesture_settings = initialState.gesture_settings ∧
      sess1 = (if "FIST (OFF)" ∈ interestSet then
                 { last_gesture := some "FIST (OFF)",
                   gesture_start_time := some 100000 }
               else
                 { last_gesture := none, gesture_start_time := none })) ∧
     (∃ st2 sess2 results,
      run initialState
        { last_gesture := some "OPEN PALM (ON)", gesture_start_time := some 0 }
        [(fistLandmarks, 100000), (palmLandmarks, 200000),
         (palmLandmarks, 1700000)] =
        some (st2, sess2, results) ∧
      results.map (fun r => (r.1).action_triggered) =
        [none, none,
         some (if "OPEN PALM (ON)" = "OPEN PALM (ON)" then "turned_on"
           else "turned_off")])) :=
  ⟨rfl, by decide, by decide, by decide, by decide, by decide, by decide,
   by decide, by decide, rfl, by decide,
   hold_interrupt_resets initialState
     { last_gesture := some "OPEN PALM (ON)", gesture_start_time := some 0 }
     "OPEN PALM (ON)" "FIST (OFF)" fistLandmarks palmLandmarks 0 5
     100000 200000 1700000 rfl (by decide) (by decide) (by decide)
     (by decide) (by decide) (by decide) (by decide) (by decide) rfl
     (by decide)⟩

/-- C5: a frame whose finger count is 1-4 selects the mapped device
immediately: if that device exists and differs from the current one, the
current device is repointed and exactly one selection broadcast goes out;
otherwise nothing changes and nothing is broadcast.  Device states are
untouched either way. -/
theorem device_selection_immediate (st : ServerState) (sess : SessionState)
    (l : List Landmark) (now : Int) (k : Nat)
    (hk : k = 1 ∨ k = 2 ∨ k = 3 ∨ k = 4)
    (hlen : ¬ l.length = 0)
    (hc : count_fingers l = some k) :
    ∃ st2 sess2 resp evs,
      process_frame st sess l now = some (st2, sess2, resp, evs) ∧
      st2.devices = st.devices ∧
      resp.finger_count = k ∧
      (if (st.devices.lookup ("device_" ++ toString k)).isSome = true ∧
          st.current_device ≠ "device_" ++ toString k then
        st2.current_device = "device_" ++ toString k ∧
        resp.device_selected = some ("device_" ++ toString k) ∧
        evs = [Event.device_selected ("device_" ++ toString k)]
      else
        st2.current_device = st.current_device ∧
        resp.device_selected = none ∧
        evs = []) := by
  have hg : detect_gesture l = some (specGestureLookup k) := by
    rw [detect_gesture_nonempty l hlen, hc, Option.map_some']
  have hpos : l.length > 0 := by omega
  have hnotint : ¬ specGestureLookup k ∈ interestSet := by
    rcases hk with rfl | rfl | rfl | rfl <;> decide
  rw [process_frame_eq_classified st sess l now _ k hg hc hpos,
    process_classified_not_interest st sess _ k true now hnotint]
  by_cases hcond : (st.devices.lookup ("device_" ++ toString k)).isSome = true ∧
      st.current_device ≠ "device_" ++ toString k
  · rw [if_pos ⟨hk, hcond.1, hcond.2⟩]
    exact ⟨_, _, _, _, rfl, rfl, rfl, by rw [if_pos hcond]; exact ⟨rfl, rfl, rfl⟩⟩
  · rw [if_neg (fun hs => hcond ⟨hs.2.1, hs.2.2⟩)]
    exact ⟨_, _, _, _, rfl, rfl, rfl, by rw [if_neg hcond]; exact ⟨rfl, rfl, rfl⟩⟩

/-- Witness for C5: two extended fingers select device 2 from the initial
state with a single broadcast. -/
theorem device_selection_immediate_witness :
    ((2:Nat) = 1 ∨ (2:Nat) = 2 ∨ (2:Nat) = 3 ∨ (2:Nat) = 4) ∧
    ¬ twoFingerLandmarks.length = 0 ∧
    count_fingers twoFingerLandmarks = some 2 ∧
    (∃ st2 sess2 resp evs,
      process_frame initialState initialSession twoFingerLandmarks 5 =
        some (st2, sess2, resp, evs) ∧
      st2.devices = initialState.devices ∧
      resp.finger_count = 2 ∧
      (if (initialState.devices.lookup ("device_" ++ toString 2)).isSome = true ∧
          initialState.current_device ≠ "device_" ++ toString 2 then
        st2.current_device = "device_" ++ toString 2 ∧
        resp.device_selected = some ("device_" ++ toString 2) ∧
        evs = [Event.device_selected ("device_" ++ toString 2)]
      else
        st2.current_device = initialState.current_device ∧
        resp.device_selected = none ∧
        evs = [])) :=
  ⟨by decide, by decide, by decide,
   device_selection_immediate initialState initialSession twoFingerLandmarks
     5 2 (by decide) (by decide) (by decide)⟩

/-- The selection guard ignores the enabled flag. -/
lemma selCond_setEnabled (st : ServerState) (c : Nat) (b : Bool) :
    selCond (setEnabled st b) c ↔ selCond st c := Iff.rfl

/-- Error path of the hold gate: a matching last gesture with no start
time is a `TypeError` in the source. -/
lemma process_classified_no_start (st : ServerState) (sess : SessionState)
    (g : String) (c : Nat) (h : Bool) (now : Int)
    (hgi : g ∈ interestSet) (hsame : sess.last_gesture = some g)
    (ht0 : sess.gesture_start_time = none) (hnosel : ¬ selCond st c) :
    process_classified st sess g c h now = none := by
  simp only [process_classified, if_neg hnosel, if_pos hgi, if_pos hsame,
    ht0]

/-- Error path of the hold gate: firing with a current device missing
from the registry is a `KeyError` in the source. -/
lemma process_classified_no_device (st : ServerState) (sess : SessionState)
    (g : String) (c : Nat) (h : Bool) (now t0 : Int)
    (hgi : g ∈ interestSet) (hsame : sess.last_gesture = some g)
    (ht0 : sess.gesture_start_time = some t0) (hnosel : ¬ selCond st c)
    (hge : now - t0 ≥ st.gesture_settings.hold_time)
    (hd : st.devices.lookup st.current_device = none) :
    process_classified st sess g c h now = none := by
  simp only [process_classified, if_neg hnosel, if_pos hgi, if_pos hsame,
    ht0, if_pos hge, hd]

/-- One frame of the pipeline never reads the enabled flag: flipping it
beforehand yields the same outcome with the flag carried along. -/
lemma process_frame_setEnabled (st : ServerState) (sess : SessionState)
    (l : List Landmark) (now : Int) (b : Bool) :
    process_frame (setEnabled st b) sess l now =
      (process_frame st sess l now).map
        (fun r => (setEnabled r.1 b, r.2)) := by
  by_cases hl : l.length = 0
  · have hl' : l = [] := List.length_eq_zero.mp hl
    subst hl'
    have hni : ¬ ("No Hand" ∈ interestSet) := by decide
    have hns : ∀ s : ServerState, ¬ selCond s 0 := fun s => by
      rintro ⟨h1, -, -⟩
      simp at h1
    rw [process_frame_empty, process_frame_empty,
      process_classified_not_interest _ _ _ _ _ _ hni,
      process_classified_not_interest _ _ _ _ _ _ hni,
      if_neg (hns _), if_neg (hns _), Option.map_some']
  · have hpos : l.length > 0 := Nat.pos_of_ne_zero hl
    rcases hdg : detect_gesture l with _ | g
    · have hL : process_frame (setEnabled st b) sess l now = none := by
        simp [process_frame, hdg]
      have hR : process_frame st sess l now = none := by
        simp [process_frame, hdg]
      rw [hL, hR]
      rfl
    · have hcs : ∃ c, count_fingers l = some c := by
        rcases hcc : count_fingers l with _ | c
        · rw [detect_gesture_nonempty l hl, hcc] at hdg
          simp at hdg
        · exact ⟨c, rfl⟩
      obtain ⟨c, hc⟩ := hcs
      have hgs : g = specGestureLookup c := by
        have h2 := hdg
        rw [detect_gesture_nonempty l hl, hc, Option.map_some'] at h2
        exact (Option.some.inj h2).symm
      rw [process_frame_eq_classified (setEnabled st b) sess l now g c hdg
          hc hpos,
        process_frame_eq_classified st sess l now g c hdg hc hpos]
      by_cases hgi : g ∈ interestSet
      · have hc05 : c = 0 ∨ c = 5 := interest_count c (hgs ▸ hgi)
        have hnosel := selCond_not_of_interest_count st c hc05
        have hnosel' :=
          selCond_not_of_interest_count (setEnabled st b) c hc05
        by_cases hlast : sess.last_gesture = some g
        · rcases ht0 : sess.gesture_start_time with _ | t0
          · rw [process_classified_no_start st sess g c true now hgi hlast
                ht0 hnosel,
              process_classified_no_start (setEnabled st b) sess g c true
                now hgi hlast ht0 hnosel']
            rfl
          · by_cases hthr : now - t0 ≥ st.gesture_settings.hold_time
            · rcases hd : st.devices.lookup st.current_device with _ | d
              · rw [process_classified_no_device st sess g c true now t0
                    hgi hlast ht0 hnosel hthr hd,
                  process_classified_no_device (setEnabled st b) sess g c
                    true now t0 hgi hlast ht0 hnosel' hthr hd]
                rfl
              · rw [process_classified_hold_fire st sess g c true now t0 d
                    hgi hlast ht0 hnosel hthr hd,
                  process_classified_hold_fire (setEnabled st b) sess g c
                    true now t0 d hgi hlast ht0 hnosel' hthr hd,
                  Option.map_some']
                rfl
            · rw [process_classified_hold_stay st sess g c true now t0 hgi
                  hlast ht0 hnosel hthr,
                process_classified_hold_stay (setEnabled st b) sess g c
                  true now t0 hgi hlast ht0 hnosel' hthr,
                Option.map_some']
        · rw [process_classified_interest_new st sess g c true now hgi
              hlast hnosel,
            process_classified_interest_new (setEnabled st b) sess g c
              true now hgi hlast hnosel',
            Option.map_some']
      · rw [process_classified_not_interest st sess g c true now hgi,
          process_classified_not_interest (setEnabled st b) sess g c true
            now hgi]
        by_cases hs : selCond st c
        · rw [if_pos hs, if_pos ((selCond_setEnabled st c b).mpr hs),
            Option.map_some']
          rfl
        · rw [if_neg hs,
            if_neg (fun h2 => hs ((selCond_setEnabled st c b).mp h2)),
            Option.map_some']

/-- C10: the pipeline is independent of the stored enabled flag: for any
frame sequence, running with the flag flipped yields exactly the same
per-frame responses and broadcasts and the same device states, current
selection and session state — only the carried flag differs. -/
theorem enabled_flag_noninterference (st : ServerState)
    (sess : SessionState) (frames : List (List Landmark × Int)) (b : Bool) :
    run (setEnabled st b) sess frames =
      (run st sess frames).map (fun r => (setEnabled r.1 b, r.2)) := by
  induction frames generalizing st sess with
  | nil => rfl
  | cons f frames ih =>
    obtain ⟨l, t⟩ := f
    simp only [run, bind, process_frame_setEnabled st sess l t b]
    rcases hpf : process_frame st sess l t with _ | r
    · rfl
    · obtain ⟨st1, sess1, resp, evs⟩ := r
      simp only [Option.map_some', Option.some_bind, ih st1 sess1]
      rcases hrun : run st1 sess1 frames with _ | out
      · rfl
      · obtain ⟨st2, sess2, results⟩ := out
        simp only [Option.map_some', Option.some_bind]
        rfl

end HGR
